import Mathlib

/-!
Verification of the track-forwarding engine of an SFU (selective forwarding
unit) written in Go. The definitions below are shallow embeddings of the Go
source files:

  - pkg/routing/signal.go           (signal-relay message reader and sink)
  - pkg/sfu/redreceiver.go          (RED audio redundancy encoder)
  - pkg/sfu/videolayerselector/...  (VP9 video layer selector)
  - pkg/sfu/streamtrackermanager    (layered bitrates, cross-layer RTP
                                     timestamp alignment)
  - pkg/sfu/receiver / downtrackspreader (down-track management)

Machine integers of the Go source (uint16 / uint32 / uint64 / int64) are
modelled as Nat or Int with explicit reduction modulo 2^16 or 2^32 at the
points where Go arithmetic wraps. Fallible Go functions are modelled with
Except. Theorems at the end of the file settle the specification claims.
-/

/-- Reduction of a natural number to Go uint16 range. -/
def u16 (x : Nat) : Nat := x % 2 ^ 16

/-- Reduction of a natural number to Go uint32 range. -/
def u32 (x : Nat) : Nat := x % 2 ^ 32

/-- Go uint16 subtraction a - b (wrapping modulo 2^16). -/
def u16sub (a b : Nat) : Nat := (u16 a + 2 ^ 16 - u16 b) % 2 ^ 16

/-- Go uint32 subtraction a - b (wrapping modulo 2^32). -/
def u32sub (a b : Nat) : Nat := (u32 a + 2 ^ 32 - u32 b) % 2 ^ 32

/-- Go uint32 addition a + b (wrapping modulo 2^32). -/
def u32add (a b : Nat) : Nat := (a + b) % 2 ^ 32

/-- Go conversion uint32(x) of a signed 64-bit value: the low 32 bits. -/
def u32ofInt (x : Int) : Nat := (x % (2 ^ 32 : Int)).toNat

/-- Go int64 overflow: reduce an integer to the two's-complement int64 value
with the same low 64 bits, as Go arithmetic on int64 wraps. -/
def wrap64 (x : Int) : Int := (x + 2 ^ 63) % 2 ^ 64 - 2 ^ 63

/-!
## Signal-relay message reader and sink (pkg/routing/signal.go)

The relay protocol frame carries a sequence number `seq` (cumulative count of
messages sent before this frame) and a batch of messages. Messages are opaque
to the reader and the sink; they are modelled by a type parameter.
-/

/-- Errors surfaced by the signal relay (signal.go lines 22-23). -/
inductive SignalError where
  | dropped
  | writeFailed
deriving DecidableEq, Repr

/-- Shallow embedding of signalMessageReader.Read (signal.go lines 205-224).
Inputs: the local cumulative counter r.seq, the frame sequence number
msg.GetSeq() and the frame batch. Output: the delivered messages together
with the updated local counter, or ErrSignalMessageDropped. -/
def signalMessageReaderRead {α : Type} (localSeq msgSeq : Nat) (batch : List α) :
    Except SignalError (List α × Nat) :=
  if localSeq < msgSeq then
    .error .dropped
  else
    let res :=
      if localSeq > msgSeq then
        batch.drop (min (localSeq - msgSeq) batch.length)
      else
        batch
    .ok (res, localSeq + res.length)

/-- Configuration of the signal relay (config keys signal_relay.*). -/
structure SignalRelayConfig where
  minRetryInterval : Nat
  maxRetryInterval : Nat
  retryTimeout : Nat
deriving DecidableEq, Repr

/-- Mutable state of signalMessageSink guarded by its mutex (signal.go lines
241-249): the cumulative message counter seq, the pending message queue and
the draining flag. -/
structure SinkState (α : Type) where
  seq : Nat
  queue : List α
  draining : Bool
deriving DecidableEq, Repr

/-- Result of one iteration of the signalMessageSink.write loop. -/
structure WriteIterResult (α : Type) where
  state : SinkState α
  interval : Nat
  loopExit : Bool
  sendFailed : Bool
  closedWithWriteFailed : Bool
deriving DecidableEq, Repr

/-- Shallow embedding of one iteration of the signalMessageSink.write loop
(signal.go lines 279-332), entered with the loop condition satisfied
(queue non-empty or draining, stream not closed). The outcome of the
Stream.Send call is the oracle sendOk; afterDeadline tells whether
time.Now().After(deadline) held when the send failed; arrivals are the
messages appended by WriteMessage while the mutex was released around the
send. closedWithWriteFailed records whether the epilogue running at loop
exit closes the stream with ErrSignalWriteFailed (it does so when the final
send error is non-nil and CloseOnFailure is set). -/
def signalMessageSinkWriteIter {α : Type} (cfg : SignalRelayConfig) (closeOnFailure : Bool)
    (st : SinkState α) (interval : Nat) (sendOk : Bool) (afterDeadline : Bool)
    (arrivals : List α) : WriteIterResult α :=
  let closeFrame := st.draining
  let n := st.queue.length
  let queueAtRelock := st.queue ++ arrivals
  if sendOk then
    { state := { st with seq := st.seq + n, queue := queueAtRelock.drop n }
      interval := cfg.minRetryInterval
      loopExit := closeFrame
      sendFailed := false
      closedWithWriteFailed := false }
  else if afterDeadline then
    { state := { st with seq := st.seq + queueAtRelock.length, queue := [] }
      interval := interval
      loopExit := true
      sendFailed := true
      closedWithWriteFailed := closeOnFailure }
  else
    { state := { st with queue := queueAtRelock }
      interval := min (interval * 2) cfg.maxRetryInterval
      loopExit := false
      sendFailed := true
      closedWithWriteFailed := false }

/-!
## RED encoder (pkg/sfu/redreceiver.go)
-/

/-- Constant maxRedCount (redreceiver.go line 18). -/
def maxRedCount : Nat := 2

/-- Constant mtuSize (redreceiver.go line 19). -/
def mtuSize : Nat := 1500

/-- Constant opusPT (redreceiver.go line 24). -/
def opusPT : Nat := 111

/-- An RTP packet as used by the RED encoder: 16-bit sequence number, 32-bit
timestamp, payload bytes. -/
structure RtpPacket where
  sequenceNumber : Nat
  timestamp : Nat
  payload : List Nat
deriving DecidableEq, Repr

/-- Error produced by encodeRedForPrimary when the scratch buffer cannot hold
a data block (redreceiver.go line 186). -/
inductive RedError where
  | insufficientSpace
deriving DecidableEq, Repr

/-- History buffer pktBuff of the RedReceiver (redreceiver.go line 32):
a two-entry array of previous primary packets, newest at slot1. -/
structure RedHistory where
  slot0 : Option RtpPacket
  slot1 : Option RtpPacket
deriving DecidableEq, Repr

/-- The portion pktBuff[lastNilPkt+1:] scanned for redundancy candidates
(redreceiver.go lines 109-120): lastNilPkt is the highest index holding nil,
found by scanning from the top. -/
def scanWindow (hist : RedHistory) : List RtpPacket :=
  match hist.slot1, hist.slot0 with
  | none, _ => []
  | some p1, none => [p1]
  | some p1, some p0 => [p0, p1]

/-- The filter applied to each previous packet (redreceiver.go lines 121-124):
a candidate is skipped when its sequence number equals the current one, when
it is more than maxRedCount sequence numbers behind (uint16 arithmetic), or
when it is at least 1 << 14 timestamp units behind (uint32 arithmetic). -/
def redUsable (pkt prev : RtpPacket) : Bool :=
  decide (¬ (u16 pkt.sequenceNumber = u16 prev.sequenceNumber ∨
             u16sub pkt.sequenceNumber prev.sequenceNumber > maxRedCount ∨
             u32sub pkt.timestamp prev.timestamp ≥ 2 ^ 14))

/-- The redundancy packets collected for the current primary packet
(redreceiver.go lines 109-127). -/
def collectRedPackets (hist : RedHistory) (pkt : RtpPacket) : List RtpPacket :=
  (scanWindow hist).filter (redUsable pkt)

/-- Insertion of the current primary packet into the history buffer
(redreceiver.go lines 129-142): scan from the top for an empty slot or a slot
whose packet is not newer than the current one; age out older entries by
shifting, then store the packet there. -/
def insertPrimaryPacket (hist : RedHistory) (pkt : RtpPacket) : RedHistory :=
  match hist.slot1 with
  | none => { slot0 := hist.slot1, slot1 := some pkt }
  | some p1 =>
    if u16sub pkt.sequenceNumber p1.sequenceNumber < 2 ^ 15 then
      { slot0 := hist.slot1, slot1 := some pkt }
    else
      match hist.slot0 with
      | none => { hist with slot0 := some pkt }
      | some p0 =>
        if u16sub pkt.sequenceNumber p0.sequenceNumber < 2 ^ 15 then
          { hist with slot0 := some pkt }
        else
          hist

/-- The 32-bit RED block header built for one redundancy packet
(redreceiver.go lines 170-174): starting from 0x80 | opusPT, shift in the
14-bit timestamp offset and the 10-bit block length. -/
def redHeaderWord (primary p : RtpPacket) : Nat :=
  let header := 0x80 ||| opusPT
  let header := (header <<< 14) ||| (u32sub primary.timestamp p.timestamp &&& 0x3FFF)
  (header <<< 10) ||| (p.payload.length &&& 0x3FF)

/-- Big-endian serialization of a 32-bit word (binary.BigEndian.PutUint32). -/
def putUint32 (w : Nat) : List Nat :=
  [w >>> 24 &&& 0xFF, w >>> 16 &&& 0xFF, w >>> 8 &&& 0xFF, w &&& 0xFF]

/-- Shallow embedding of the free function encodeRedForPrimary
(redreceiver.go lines 147-191). It returns the bytes written to redPayload:
one 4-byte header block per redundancy packet, the single-byte final header
holding the primary payload type, the redundancy payloads and the primary
payload. If the required payload size exceeds the buffer the redundancy list
is emptied first; if a data block still cannot fit, the copy fails and an
error is returned. -/
def encodeRedForPrimary (redPkts : List RtpPacket) (primary : RtpPacket) (bufLen : Nat) :
    Except RedError (List Nat) :=
  let payloadSize := primary.payload.length + 1 +
    (redPkts.map (fun p => p.payload.length + 4)).sum
  let kept := if payloadSize > bufLen then [] else redPkts
  let out := (kept.map (fun p => putUint32 (redHeaderWord primary p))).flatten
    ++ [opusPT]
    ++ (kept.map (fun p => p.payload)).flatten
    ++ primary.payload
  if out.length > bufLen then .error .insufficientSpace else .ok out

/-- Shallow embedding of the RedReceiver.encodeRedForPrimary method
(redreceiver.go lines 108-145): collect redundancy candidates from the
history, insert the primary packet into the history, and encode into the
mtuSize scratch buffer. Returns the updated history and the encoded payload. -/
def encodeRedForPrimaryMethod (hist : RedHistory) (pkt : RtpPacket) :
    RedHistory × Except RedError (List Nat) :=
  (insertPrimaryPacket hist pkt,
   encodeRedForPrimary (collectRedPackets hist pkt) pkt mtuSize)

/-!
## VP9 video layer selector (pkg/sfu/videolayerselector/vp9.go)
-/

/-- A spatial/temporal layer pair. Modelled from the spec: VideoLayer is
a pair of int8 values (spatial, temporal); the buffer package holding the Go
definition is not part of the scanned sources. -/
structure VideoLayer where
  spatial : Int
  temporal : Int
deriving DecidableEq, Repr

/-- Modelled from the spec: the sentinel InvalidLayer is the pair (-1, -1). -/
def InvalidLayer : VideoLayer := { spatial := -1, temporal := -1 }

/-- Modelled from the spec: a layer is valid when neither coordinate is the
invalid sentinel value -1. -/
def VideoLayer.IsValid (v : VideoLayer) : Bool :=
  decide (v.spatial ≠ -1 ∧ v.temporal ≠ -1)

/-- Modelled from the spec: layer comparison is lexicographic on the pair
(spatial, temporal). -/
def VideoLayer.GreaterThan (v w : VideoLayer) : Bool :=
  decide (v.spatial > w.spatial ∨ (v.spatial = w.spatial ∧ v.temporal > w.temporal))

/-- The picture flags of a parsed VP9 packet descriptor used by the selector:
P (inter-picture predicted), E (end of frame), B (beginning of frame),
U (switching up point). -/
structure VP9PacketFlags where
  P : Bool
  E : Bool
  B : Bool
  U : Bool
deriving DecidableEq, Repr

/-- An RTP packet enriched by the buffer, restricted to the fields the VP9
selector reads: the codec payload descriptor (present when the type
assertion to codecs.VP9Packet succeeds), the key frame flag, the per-packet
video layer and the RTP marker bit. -/
structure ExtPacket where
  vp9 : Option VP9PacketFlags
  keyFrame : Bool
  videoLayer : VideoLayer
  marker : Bool
deriving DecidableEq, Repr

/-- The result record of VideoLayerSelector.Select; Go zero value is all
false. -/
structure VideoLayerSelectorResult where
  isSelected : Bool
  isRelevant : Bool
  isResuming : Bool
  isSwitchingToRequestSpatial : Bool
  isSwitchingToMaxSpatial : Bool
  rtpMarker : Bool
deriving DecidableEq, Repr

instance : Inhabited VideoLayerSelectorResult :=
  ⟨{ isSelected := false, isRelevant := false, isResuming := false,
     isSwitchingToRequestSpatial := false, isSwitchingToMaxSpatial := false,
     rtpMarker := false }⟩

/-- The selector state fields read and written by VP9.Select: current layer,
target layer, requested spatial layer and max layer (vp9.go, Base fields). -/
structure VP9SelectorState where
  currentLayer : VideoLayer
  targetLayer : VideoLayer
  requestSpatial : Int
  maxLayer : VideoLayer
deriving DecidableEq, Repr

/-- The layer-transition block of VP9.Select (vp9.go lines 36-75). Returns
none for the early return (current layer invalid and the packet is not a key
frame); otherwise returns the pair (local currentLayer copy, updatedLayer)
as left by the block. The local copy is advanced only by the two scale-up
branches, exactly as in the source. -/
def vp9SelectInner (v : VP9SelectorState) (vp9 : VP9PacketFlags) (extPkt : ExtPacket) :
    Option (VideoLayer × VideoLayer) :=
  if v.currentLayer = v.targetLayer then
    some (v.currentLayer, v.currentLayer)
  else if !v.currentLayer.IsValid then
    if !extPkt.keyFrame then none
    else some (v.currentLayer, extPkt.videoLayer)
  else
    let cu0 := (v.currentLayer, v.currentLayer)
    let cu1 :=
      if v.currentLayer.temporal ≠ v.targetLayer.temporal then
        if v.currentLayer.temporal < v.targetLayer.temporal then
          if extPkt.videoLayer.temporal > v.currentLayer.temporal ∧
             extPkt.videoLayer.temporal ≤ v.targetLayer.temporal ∧
             vp9.U = true ∧ vp9.B = true then
            ({ cu0.1 with temporal := extPkt.videoLayer.temporal },
             { cu0.2 with temporal := extPkt.videoLayer.temporal })
          else cu0
        else
          if vp9.E then (cu0.1, { cu0.2 with temporal := v.targetLayer.temporal })
          else cu0
      else cu0
    let cu2 :=
      if v.currentLayer.spatial ≠ v.targetLayer.spatial then
        if v.currentLayer.spatial < v.targetLayer.spatial then
          if extPkt.videoLayer.spatial > v.currentLayer.spatial ∧
             extPkt.videoLayer.spatial ≤ v.targetLayer.spatial ∧
             vp9.P = false ∧ vp9.B = true then
            ({ cu1.1 with spatial := extPkt.videoLayer.spatial },
             { cu1.2 with spatial := extPkt.videoLayer.spatial })
          else cu1
        else
          if vp9.E then (cu1.1, { cu1.2 with spatial := v.targetLayer.spatial })
          else cu1
      else cu1
    some cu2

/-- Shallow embedding of VP9.Select (vp9.go lines 29-111). Returns the
updated selector state and the selection result. A packet whose payload is
not a VP9 descriptor yields the zero result and leaves the state unchanged. -/
def vp9Select (v : VP9SelectorState) (extPkt : ExtPacket) :
    VP9SelectorState × VideoLayerSelectorResult :=
  match extPkt.vp9 with
  | none => (v, default)
  | some vp9 =>
    match vp9SelectInner v vp9 extPkt with
    | none => (v, default)
    | some cu =>
      let cur := cu.1
      let upd := cu.2
      let changed := upd ≠ v.currentLayer
      let result0 : VideoLayerSelectorResult :=
        if changed then
          { (default : VideoLayerSelectorResult) with
            isResuming := !v.currentLayer.IsValid && upd.IsValid
            isSwitchingToRequestSpatial :=
              decide (v.currentLayer.spatial ≠ v.requestSpatial ∧
                      upd.spatial = v.requestSpatial)
            isSwitchingToMaxSpatial :=
              decide (v.currentLayer.spatial ≠ v.maxLayer.spatial ∧
                      upd.spatial = v.maxLayer.spatial) }
        else default
      let newState := if changed then { v with currentLayer := upd } else v
      let rtpMarker :=
        if vp9.E = true ∧ extPkt.videoLayer.spatial = cur.spatial ∧
           (vp9.P = true ∨ v.targetLayer.spatial ≤ newState.currentLayer.spatial) then
          true
        else extPkt.marker
      (newState,
       { result0 with
         rtpMarker := rtpMarker
         isSelected := !(extPkt.videoLayer.GreaterThan cur)
         isRelevant := true })

/-!
## StreamTrackerManager: layered bitrates (streamtrackermanager.go)
-/

/-- The Bitrates matrix: DefaultMaxLayerSpatial + 1 = 3 spatial rows and
DefaultMaxLayerTemporal + 1 = 4 temporal columns of int64 byte rates. -/
def Bitrates : Type := Fin 3 → Fin 4 → Int

/-- The matrix assembled by the first loop of getLayeredBitrateLocked
(streamtrackermanager.go lines 544-558): a row is the cumulative temporal
byte counts of the layer tracker when the layer is present in
availableLayers, and zero when the tracker is nil or the layer is not
available. The trackers argument gives, per layer, the value of
tracker.BitrateTemporalCumulative() when a tracker exists. -/
def baseBitrates (trackers : Fin 3 → Option (Fin 4 → Int))
    (availableLayers : List Int) : Bitrates :=
  fun i j =>
    match trackers i with
    | none => 0
    | some tls => if (i : Int) ∈ availableLayers then tls j else 0

/-- The byte total of one temporal column over spatial rows 0..i, for the
three-row matrix (the inner accumulation loop of getLayeredBitrateLocked,
lines 561-569, which adds every lower row into row i). -/
def colSum (br : Bitrates) (i : Fin 3) (j : Fin 4) : Int :=
  if (i : Nat) = 0 then br 0 j
  else if (i : Nat) = 1 then br 0 j + br 1 j
  else br 0 j + br 1 j + br 2 j

/-- Shallow embedding of getLayeredBitrateLocked (streamtrackermanager.go
lines 544-576), Bitrates part. For SVC codecs, every nonzero entry of a row
above row 0 is replaced by the cumulative sum of its column over that row
and all lower rows; the loop runs top-down so each rewritten row reads the
original values of the rows below it. -/
def getLayeredBitrateLocked (isSVC : Bool) (trackers : Fin 3 → Option (Fin 4 → Int))
    (availableLayers : List Int) : Bitrates :=
  fun i j =>
    let br := baseBitrates trackers availableLayers
    if isSVC then
      if 1 ≤ (i : Nat) ∧ br i j ≠ 0 then colSum br i j else br i j
    else br i j

/-!
## StreamTrackerManager: cross-layer RTP timestamp alignment
(streamtrackermanager.go lines 673-741)
-/

/-- An RTCP sender report as recorded per layer: the raw 64-bit NTP
timestamp (Q32.32 seconds) and the 32-bit RTP timestamp. -/
structure RTCPSenderReportData where
  ntpTimestamp : Nat
  rtpTimestamp : Nat
deriving DecidableEq, Repr

/-- Modelled from the spec: conversion of a raw Q32.32 NTP timestamp to
nanoseconds since the NTP epoch, as performed by NtpTime.Time() of the
transport-util dependency (whole seconds scaled to nanoseconds; the
fractional 32 bits scaled by 10^9 and rounded to nearest). -/
def ntpNanos (t : Nat) : Nat :=
  let sec := (t >>> 32) * 1000000000
  let frac := (t % 2 ^ 32) * 1000000000
  let nsec := frac >>> 32
  sec + (if frac % 2 ^ 32 ≥ 0x80000000 then nsec + 1 else nsec)

/-- Errors of GetReferenceLayerRTPTimestamp: negative layer argument, or a
missing / zero-NTP sender report on one of the two layers. -/
inductive RefTimestampError where
  | invalidLayer
  | layerReportNotAvailable
  | referenceReportNotAvailable
deriving DecidableEq, Repr

/-- The per-layer sender report lookup of GetReferenceLayerRTPTimestamp
(streamtrackermanager.go lines 698-711): the slot is read only when the
index is within the three-entry array, otherwise the report stays nil. -/
def lookupSenderReport (senderReports : Fin 3 → Option RTCPSenderReportData)
    (layer : Int) : Option RTCPSenderReportData :=
  if h : 0 ≤ layer ∧ layer.toNat < 3 then senderReports ⟨layer.toNat, h.2⟩ else none

/-- Shallow embedding of StreamTrackerManager.GetReferenceLayerRTPTimestamp
(streamtrackermanager.go lines 684-741). The NTP difference between the two
reports, taken by Time.Sub in nanoseconds (saturating at the int64 bounds,
as Time.Sub does), is multiplied by the clock rate in int64 (wrapping modulo
2^64 on overflow) and divided by 10^9 with truncating int64 division; the
result is converted to uint32 and used to normalize the layer RTP timestamp
to the NTP time of the reference report, and the wrapped difference between
the reference RTP timestamp and the normalized timestamp is added to ts. -/
def getReferenceLayerRTPTimestamp (senderReports : Fin 3 → Option RTCPSenderReportData)
    (clockRate : Nat) (ts : Nat) (layer referenceLayer : Int) :
    Except RefTimestampError Nat :=
  if layer < 0 ∨ referenceLayer < 0 then .error .invalidLayer
  else
    match lookupSenderReport senderReports layer with
    | none => .error .layerReportNotAvailable
    | some srLayer =>
      if srLayer.ntpTimestamp = 0 then .error .layerReportNotAvailable
      else
        match lookupSenderReport senderReports referenceLayer with
        | none => .error .referenceReportNotAvailable
        | some srRef =>
          if srRef.ntpTimestamp = 0 then .error .referenceReportNotAvailable
          else
            let ntpDiff : Int :=
              max (-(2 ^ 63)) (min (2 ^ 63 - 1)
                ((ntpNanos srRef.ntpTimestamp : Int) - (ntpNanos srLayer.ntpTimestamp : Int)))
            let rtpDiff : Int := Int.tdiv (wrap64 (ntpDiff * (clockRate : Int))) 1000000000
            let normalizedTS := u32add srLayer.rtpTimestamp (u32ofInt rtpDiff)
            .ok (u32add ts (u32sub srRef.rtpTimestamp normalizedTS))

/-!
## WebRTCReceiver.AddDownTrack / DeleteDownTrack and DownTrackSpreader
(receiver.go lines 1165-1264, downtrackspreader.go)
-/

/-- A down track sender, reduced to the fields the receiver operations use:
its subscriber id and an opaque tag distinguishing sender instances. -/
structure TrackSender where
  subscriberID : Nat
  tag : Nat
deriving DecidableEq, Repr

/-- Error returned by AddDownTrack on a closed receiver (receiver.go line
820). -/
inductive ReceiverError where
  | receiverClosed
deriving DecidableEq, Repr

/-- Notifications delivered to a newly added down track sender by
AddDownTrack before it is stored. -/
inductive SenderNotification where
  | trackInfoAvailable
  | upTrackMaxPublishedLayerChange (layer : Int)
  | upTrackMaxTemporalLayerSeenChange (layer : Int)
deriving DecidableEq, Repr

/-- Shallow embedding of DownTrackSpreader.Store (downtrackspreader.go):
the map insert d.downTracks[ts.SubscriberID()] = ts on an association list,
replacing the entry with the same key when present. -/
def spreaderStore (downTracks : List (Nat × TrackSender)) (ts : TrackSender) :
    List (Nat × TrackSender) :=
  if downTracks.any (fun e => e.1 = ts.subscriberID) then
    downTracks.map (fun e => if e.1 = ts.subscriberID then (e.1, ts) else e)
  else
    downTracks ++ [(ts.subscriberID, ts)]

/-- Shallow embedding of DownTrackSpreader.Free (downtrackspreader.go): the
map delete by subscriber id. -/
def spreaderFree (downTracks : List (Nat × TrackSender)) (subscriberID : Nat) :
    List (Nat × TrackSender) :=
  downTracks.filter (fun e => decide (e.1 ≠ subscriberID))

/-- The WebRTCReceiver state read and written by AddDownTrack and
DeleteDownTrack: the closed flag, the two layer maxima kept by the
StreamTrackerManager, and the spreader map. -/
structure WebRTCReceiverState where
  closed : Bool
  maxPublishedLayer : Int
  maxTemporalLayerSeen : Int
  downTracks : List (Nat × TrackSender)
deriving DecidableEq, Repr

/-- Shallow embedding of WebRTCReceiver.AddDownTrack (receiver.go lines
1165-1180): reject when closed; otherwise notify the new sender of the
current maxPublishedLayer and maxTemporalLayerSeen and store it in the
spreader. The notification list is emitted in source order, before the
store. -/
def addDownTrack (w : WebRTCReceiverState) (track : TrackSender) :
    Except ReceiverError (WebRTCReceiverState × List SenderNotification) :=
  if w.closed then .error .receiverClosed
  else
    .ok ({ w with downTracks := spreaderStore w.downTracks track },
         [.trackInfoAvailable,
          .upTrackMaxPublishedLayerChange w.maxPublishedLayer,
          .upTrackMaxTemporalLayerSeenChange w.maxTemporalLayerSeen])

/-- Shallow embedding of WebRTCReceiver.DeleteDownTrack (receiver.go lines
1258-1264): a no-op when the receiver is closed, otherwise the spreader
entry is freed. The Go method has no error result; the Except type records
that every call returns successfully. -/
def deleteDownTrack (w : WebRTCReceiverState) (subscriberID : Nat) :
    Except ReceiverError WebRTCReceiverState :=
  if w.closed then .ok w
  else .ok { w with downTracks := spreaderFree w.downTracks subscriberID }

/-!
## Specification-side definitions and concrete states used by the theorems
-/

/-- The redundancy admission predicate exactly as the specification claim
words it: a previous packet qualifies when its sequence number is within 16
of the current packet (and not equal to it) and its timestamp is within
16384 timestamp units of the current packet. Written from the claim, to be
compared with redUsable from the source. -/
def claimedRedUsable (pkt prev : RtpPacket) : Bool :=
  decide (u16 pkt.sequenceNumber ≠ u16 prev.sequenceNumber ∧
          u16sub pkt.sequenceNumber prev.sequenceNumber ≤ 16 ∧
          u32sub pkt.timestamp prev.timestamp ≤ 16384)

/-- The redundancy blocks as the claim describes them: the history entries
passing the claimed filter. -/
def claimedCollectRedPackets (hist : RedHistory) (pkt : RtpPacket) : List RtpPacket :=
  (scanWindow hist).filter (claimedRedUsable pkt)

/-- The redundancy admission predicate as amended to match the source:
between 1 and maxRedCount = 2 sequence numbers behind the current packet
(uint16 arithmetic) and strictly less than 16384 timestamp units behind
(uint32 arithmetic). -/
def amendedRedUsable (pkt prev : RtpPacket) : Bool :=
  decide (1 ≤ u16sub pkt.sequenceNumber prev.sequenceNumber ∧
          u16sub pkt.sequenceNumber prev.sequenceNumber ≤ maxRedCount ∧
          u32sub pkt.timestamp prev.timestamp < 2 ^ 14)

/-- The RED block header laid out as the specification words it:
F(1 bit, set) | PT(7 bits) | timestamp offset of current minus redundant
packet (14 bits) | block length (10 bits). Written from the claim, to be
compared with redHeaderWord from the source. -/
def specRedHeaderWord (primary p : RtpPacket) : Nat :=
  1 * 2 ^ 31 + opusPT * 2 ^ 24 +
    (u32sub primary.timestamp p.timestamp % 2 ^ 14) * 2 ^ 10 +
    p.payload.length % 2 ^ 10

/-- A history holding one packet five sequence numbers behind the current
one; input of the C2 counterexample. -/
def histSnFive : RedHistory :=
  { slot0 := none, slot1 := some { sequenceNumber := 5, timestamp := 0, payload := [1] } }

/-- The current primary packet of the C2 counterexample. -/
def pktSnTen : RtpPacket := { sequenceNumber := 10, timestamp := 0, payload := [2] }

/-- Tracker state of the C3 counterexample: only layer 0 has a tracker,
reporting 100000 bytes per second on every temporal column. -/
def soloLayerTrackers : Fin 3 → Option (Fin 4 → Int) :=
  fun i => if i = 0 then some (fun _ => 100000) else none

/-- Sender report state of the literal example of the specification
(end-to-end scenario 5): layer 0 at NTP 1000 s / RTP 100000 and layer 1 at
NTP 1000.1 s / RTP 110000, with the raw Q32.32 NTP fraction of 0.1 s
rounded to 429496730. -/
def exampleSenderReports : Fin 3 → Option RTCPSenderReportData :=
  fun i =>
    if i = 0 then some { ntpTimestamp := 1000 * 2 ^ 32, rtpTimestamp := 100000 }
    else if i = 1 then
      some { ntpTimestamp := 1000 * 2 ^ 32 + 429496730, rtpTimestamp := 110000 }
    else none

/-- Tracker state with two live layers (100000 and 200000 bytes per second);
input of the C3 witness. -/
def dualLayerTrackers : Fin 3 → Option (Fin 4 → Int) :=
  fun i =>
    if i = 0 then some (fun _ => 100000)
    else if i = 1 then some (fun _ => 200000)
    else none

/-- The reference-layer timestamp mapping exactly as the specification claim
words it: ts + (RTP_ref - (RTP_layer + (NTP_ref - NTP_layer) * clockRate))
computed modulo 2^32, with the NTP difference taken in nanoseconds and
scaled to RTP clock units by exact truncating division, without any int64
bound. Written from the claim, to be compared with
getReferenceLayerRTPTimestamp from the source. -/
def claimedReferenceLayerRTPTimestamp (srLayer srRef : RTCPSenderReportData)
    (clockRate : Nat) (ts : Nat) : Nat :=
  u32add ts (u32sub srRef.rtpTimestamp
    (u32add srLayer.rtpTimestamp
      (u32ofInt (Int.tdiv
        (((ntpNanos srRef.ntpTimestamp : Int) - (ntpNanos srLayer.ntpTimestamp : Int)) *
          (clockRate : Int)) 1000000000))))

/-- Sender report state with a 200000-second NTP gap between layer 0 and
layer 1: at clock rate 90000 the nanosecond difference scaled by the clock
rate is 1.8e19, which exceeds the int64 maximum. Input of the C1
counterexample. -/
def overflowSenderReports : Fin 3 → Option RTCPSenderReportData :=
  fun i =>
    if i = 0 then some { ntpTimestamp := 1000 * 2 ^ 32, rtpTimestamp := 100000 }
    else if i = 1 then
      some { ntpTimestamp := 201000 * 2 ^ 32, rtpTimestamp := 110000 }
    else none

/-!
## Theorems
-/

/-- Helper: dropping min(d, length) elements is the same as dropping d. -/
theorem drop_min_eq_drop {α : Type} (batch : List α) (d : Nat) :
    batch.drop (min d batch.length) = batch.drop d := by
  rcases le_or_lt d batch.length with h | h
  · rw [min_eq_left h]
  · rw [min_eq_right h.le, List.drop_length, List.drop_eq_nil_of_le h.le]

/-- C7: when the signal-relay receiver reads a frame, a frame sequence number
ahead of the local counter yields ErrSignalMessageDropped with no messages
delivered; a frame behind the local counter delivers the batch with the first
(localSeq - msgSeq) messages trimmed (none when the overlap covers the whole
batch); a matching frame delivers the whole batch; and in every non-error
case the local counter advances by the number of messages delivered. -/
theorem signalMessageReaderRead_spec {α : Type} (localSeq msgSeq : Nat) (batch : List α) :
    (localSeq < msgSeq →
      signalMessageReaderRead localSeq msgSeq batch = .error .dropped) ∧
    (msgSeq < localSeq →
      signalMessageReaderRead localSeq msgSeq batch =
        .ok (batch.drop (localSeq - msgSeq),
             localSeq + (batch.drop (localSeq - msgSeq)).length)) ∧
    (msgSeq = localSeq →
      signalMessageReaderRead localSeq msgSeq batch =
        .ok (batch, localSeq + batch.length)) ∧
    (∀ (delivered : List α) (newSeq : Nat),
      signalMessageReaderRead localSeq msgSeq batch = .ok (delivered, newSeq) →
      newSeq = localSeq + delivered.length) := by
  refine ⟨fun h => ?_, fun h => ?_, fun h => ?_, fun delivered newSeq h => ?_⟩
  · simp [signalMessageReaderRead, h]
  · simp [signalMessageReaderRead, Nat.not_lt.mpr h.le, h, drop_min_eq_drop]
  · simp [signalMessageReaderRead, h]
  · unfold signalMessageReaderRead at h
    split at h
    · exact absurd h (by simp)
    · split at h <;>
      · simp only [Except.ok.injEq, Prod.mk.injEq] at h
        obtain ⟨h1, h2⟩ := h
        subst h1
        simp [← h2]

/-- Witness for C7 at concrete inputs: counter 5, frame seq 3 with a
three-message batch delivers only the third message and advances to 6. -/
theorem signalMessageReaderRead_spec_witness :
    signalMessageReaderRead 5 3 [10, 20, 30] = .ok ([30], 6) :=
  ((signalMessageReaderRead_spec 5 3 [10, 20, 30]).2.1 (by decide)).trans rfl

/-- C8: one iteration of the signal-relay sink writer loop. After a failed
send before the RetryTimeout deadline the retry interval doubles but never
exceeds MaxRetryInterval and the queue and counter are untouched; a send
failing past the deadline discards the whole remaining queue, advances seq
past the discarded messages, exits the loop and (with CloseOnFailure set,
as the relay sink is constructed) closes the stream with
ErrSignalWriteFailed; a successful send advances seq by exactly the length
of the sent batch and removes exactly those messages from the queue. -/
theorem signalMessageSinkWriteIter_spec {α : Type} (cfg : SignalRelayConfig)
    (closeOnFailure : Bool) (st : SinkState α) (interval : Nat) (arrivals : List α) :
    (let r := signalMessageSinkWriteIter cfg closeOnFailure st interval false false arrivals
     r.interval = min (interval * 2) cfg.maxRetryInterval ∧
     r.interval ≤ cfg.maxRetryInterval ∧
     r.state.seq = st.seq ∧ r.state.queue = st.queue ++ arrivals ∧
     r.loopExit = false ∧ r.closedWithWriteFailed = false) ∧
    (let r := signalMessageSinkWriteIter cfg closeOnFailure st interval false true arrivals
     r.state.queue = [] ∧
     r.state.seq = st.seq + (st.queue ++ arrivals).length ∧
     r.loopExit = true ∧ r.sendFailed = true ∧
     (closeOnFailure = true → r.closedWithWriteFailed = true)) ∧
    (∀ afterDeadline : Bool,
     let r := signalMessageSinkWriteIter cfg closeOnFailure st interval true afterDeadline arrivals
     r.state.seq = st.seq + st.queue.length ∧
     r.state.queue = arrivals ∧
     r.sendFailed = false ∧ r.closedWithWriteFailed = false) := by
  refine ⟨?_, ?_, fun afterDeadline => ?_⟩
  · simp [signalMessageSinkWriteIter]
  · simp [signalMessageSinkWriteIter]
  · simp [signalMessageSinkWriteIter]

/-- Witness for C8 at a concrete state: with min interval 10, max interval
15, a queued message and one arrival, the three iteration outcomes are as
the theorem states. -/
theorem signalMessageSinkWriteIter_spec_witness :
    (let r := signalMessageSinkWriteIter ⟨10, 15, 100⟩ true ⟨4, [7], false⟩ 10 false false [9]
     r.interval = min (10 * 2) 15 ∧
     r.interval ≤ 15 ∧
     r.state.seq = 4 ∧ r.state.queue = [7] ++ [9] ∧
     r.loopExit = false ∧ r.closedWithWriteFailed = false) ∧
    (let r := signalMessageSinkWriteIter ⟨10, 15, 100⟩ true ⟨4, [7], false⟩ 10 false true [9]
     r.state.queue = [] ∧
     r.state.seq = 4 + ([7] ++ [9]).length ∧
     r.loopExit = true ∧ r.sendFailed = true ∧
     (true = true → r.closedWithWriteFailed = true)) ∧
    (∀ afterDeadline : Bool,
     let r := signalMessageSinkWriteIter ⟨10, 15, 100⟩ true ⟨4, [7], false⟩ 10 true afterDeadline [9]
     r.state.seq = 4 + [7].length ∧
     r.state.queue = [9] ∧
     r.sendFailed = false ∧ r.closedWithWriteFailed = false) :=
  signalMessageSinkWriteIter_spec ⟨10, 15, 100⟩ true ⟨4, [7], false⟩ 10 [9]

/-- Helper: keys of the spreader map are unchanged by the replacement pass
of spreaderStore. -/
theorem spreaderStore_keys_any (l : List (Nat × TrackSender)) (ts : TrackSender) :
    ((l.map (fun e => if e.1 = ts.subscriberID then (e.1, ts) else e)).map Prod.fst) =
      l.map Prod.fst := by
  rw [List.map_map]
  refine List.map_congr_left fun a _ => ?_
  by_cases h : a.1 = ts.subscriberID <;> simp [h]

/-- C9: AddDownTrack returns the receiver-closed error exactly when the
receiver is closed; when open it notifies the new sender of the current
maxPublishedLayer and maxTemporalLayerSeen (in that order, before storing)
and stores it; the store keeps at most one down track per subscriber id,
holds the new sender, and any entry under that subscriber id is the new
sender (the previous one is replaced); DeleteDownTrack never returns an
error. -/
theorem addDownTrack_spec (w : WebRTCReceiverState) (track : TrackSender) :
    ((addDownTrack w track = .error .receiverClosed) ↔ w.closed = true) ∧
    (w.closed = false →
      addDownTrack w track =
        .ok ({ w with downTracks := spreaderStore w.downTracks track },
             [.trackInfoAvailable,
              .upTrackMaxPublishedLayerChange w.maxPublishedLayer,
              .upTrackMaxTemporalLayerSeenChange w.maxTemporalLayerSeen])) ∧
    ((w.downTracks.map Prod.fst).Nodup →
      ((spreaderStore w.downTracks track).map Prod.fst).Nodup) ∧
    ((track.subscriberID, track) ∈ spreaderStore w.downTracks track) ∧
    (∀ e ∈ spreaderStore w.downTracks track,
      e.1 = track.subscriberID → e = (track.subscriberID, track)) ∧
    (∀ subscriberID, ∃ w2, deleteDownTrack w subscriberID = .ok w2) := by
  refine ⟨?_, fun h => ?_, fun h => ?_, ?_, ?_, fun subscriberID => ?_⟩
  · unfold addDownTrack
    by_cases h : w.closed <;> simp [h]
  · simp [addDownTrack, h]
  · unfold spreaderStore
    split
    · rwa [spreaderStore_keys_any]
    · rename_i hany
      simp only [List.any_eq_true, decide_eq_true_eq, not_exists, not_and] at hany
      rw [List.map_append, List.nodup_append]
      refine ⟨h, by simp, ?_⟩
      intro a ha
      simp only [List.map_cons, List.map_nil, List.mem_singleton]
      rintro rfl
      obtain ⟨e, he, hfst⟩ := List.mem_map.mp ha
      exact (hany e he) hfst
  · unfold spreaderStore
    split
    · rename_i hany
      simp only [List.any_eq_true, decide_eq_true_eq] at hany
      obtain ⟨e, he, hkey⟩ := hany
      refine List.mem_map.mpr ⟨e, he, ?_⟩
      simp [hkey]
    · simp
  · intro e hmem hkey
    unfold spreaderStore at hmem
    split at hmem
    · obtain ⟨a, ha, rfl⟩ := List.mem_map.mp hmem
      by_cases hk : a.1 = track.subscriberID <;> simp_all
    · rename_i hany
      simp only [List.any_eq_true, decide_eq_true_eq, not_exists, not_and] at hany
      rcases List.mem_append.mp hmem with hin | hin
      · exact absurd hkey (hany e hin)
      · simpa using hin
  · unfold deleteDownTrack
    by_cases h : w.closed <;> simp [h]

/-- Witness for C9 at a concrete state: an open receiver with one existing
down track for subscriber 1 accepts a replacement sender for subscriber 1. -/
theorem addDownTrack_spec_witness :
    ((addDownTrack ⟨false, 2, 3, [(1, ⟨1, 0⟩)]⟩ ⟨1, 5⟩ = .error .receiverClosed) ↔
      (false = true)) ∧
    (false = false →
      addDownTrack ⟨false, 2, 3, [(1, ⟨1, 0⟩)]⟩ ⟨1, 5⟩ =
        .ok (⟨false, 2, 3, spreaderStore [(1, ⟨1, 0⟩)] ⟨1, 5⟩⟩,
             [.trackInfoAvailable,
              .upTrackMaxPublishedLayerChange 2,
              .upTrackMaxTemporalLayerSeenChange 3])) ∧
    ((([(1, (⟨1, 0⟩ : TrackSender))].map Prod.fst).Nodup →
      ((spreaderStore [(1, ⟨1, 0⟩)] ⟨1, 5⟩).map Prod.fst).Nodup)) ∧
    (((1 : Nat), (⟨1, 5⟩ : TrackSender)) ∈ spreaderStore [(1, ⟨1, 0⟩)] ⟨1, 5⟩) ∧
    (∀ e ∈ spreaderStore [(1, ⟨1, 0⟩)] ⟨1, 5⟩, e.1 = 1 → e = (1, ⟨1, 5⟩)) ∧
    (∀ subscriberID, ∃ w2, deleteDownTrack ⟨false, 2, 3, [(1, ⟨1, 0⟩)]⟩ subscriberID = .ok w2) :=
  addDownTrack_spec ⟨false, 2, 3, [(1, ⟨1, 0⟩)]⟩ ⟨1, 5⟩

/-- Helper: the nanosecond value of a uint64 Q32.32 NTP timestamp fits in
int64. -/
theorem ntpNanos_lt (t : Nat) (ht : t < 2 ^ 64) : ntpNanos t < 2 ^ 63 := by
  simp only [ntpNanos, Nat.shiftRight_eq_div_pow]
  split_ifs <;> omega

/-- Helper: an integer already inside the int64 range is unchanged by the
int64 wrap. -/
theorem wrap64_eq_self (x : Int) (hlo : -(2 ^ 63) ≤ x) (hhi : x < 2 ^ 63) :
    wrap64 x = x := by
  unfold wrap64
  omega

/-- Counterexample to C1 as stated: with layer 0 at NTP 1000 s and layer 1
at NTP 201000 s (both reports recorded with non-zero NTP timestamps), clock
rate 90000 makes the scaled NTP difference 200000e9 ns * 90000 = 1.8e19,
which exceeds the int64 maximum; the program wraps the product modulo 2^64
before the truncating division and returns 446859073, while the formula the
claim states yields 3474951480. -/
theorem getReferenceLayerRTPTimestamp_counterexample :
    getReferenceLayerRTPTimestamp overflowSenderReports 90000 105000 0 1 =
      .ok 446859073 ∧
    claimedReferenceLayerRTPTimestamp
        { ntpTimestamp := 1000 * 2 ^ 32, rtpTimestamp := 100000 }
        { ntpTimestamp := 201000 * 2 ^ 32, rtpTimestamp := 110000 } 90000 105000 =
      3474951480 ∧
    lookupSenderReport overflowSenderReports 0 =
      some { ntpTimestamp := 1000 * 2 ^ 32, rtpTimestamp := 100000 } ∧
    lookupSenderReport overflowSenderReports 1 =
      some { ntpTimestamp := 201000 * 2 ^ 32, rtpTimestamp := 110000 } ∧
    (446859073 : Nat) ≠ 3474951480 :=
  ⟨rfl, rfl, by decide, by decide, by decide⟩

/-- C1 (amended): whenever both layers hold a recorded sender report with
non-zero NTP timestamp (a uint64 field) and the NTP nanosecond difference
scaled by the clock rate fits in int64, GetReferenceLayerRTPTimestamp
returns exactly the claimed mapping ts + (RTP_ref - (RTP_layer +
(NTP_ref - NTP_layer) * clockRate)) computed modulo 2^32; on the literal
example of the specification (layer 0 SR at NTP 1000 s, RTP 100000; layer 1
SR at NTP 1000.1 s, RTP 110000; clock 90000) the call with ts 105000 from
layer 0 to layer 1 returns 106000; and when either layer has no sender
report or a zero NTP timestamp, the call returns a not-available error. -/
theorem getReferenceLayerRTPTimestamp_spec :
    (∀ (senderReports : Fin 3 → Option RTCPSenderReportData) (clockRate ts : Nat)
       (layer referenceLayer : Int) (srLayer srRef : RTCPSenderReportData),
      0 ≤ layer → 0 ≤ referenceLayer →
      lookupSenderReport senderReports layer = some srLayer →
      srLayer.ntpTimestamp ≠ 0 →
      lookupSenderReport senderReports referenceLayer = some srRef →
      srRef.ntpTimestamp ≠ 0 →
      srLayer.ntpTimestamp < 2 ^ 64 →
      srRef.ntpTimestamp < 2 ^ 64 →
      -(2 ^ 63) ≤ ((ntpNanos srRef.ntpTimestamp : Int) -
        (ntpNanos srLayer.ntpTimestamp : Int)) * (clockRate : Int) →
      ((ntpNanos srRef.ntpTimestamp : Int) -
        (ntpNanos srLayer.ntpTimestamp : Int)) * (clockRate : Int) < 2 ^ 63 →
      getReferenceLayerRTPTimestamp senderReports clockRate ts layer referenceLayer =
        .ok (claimedReferenceLayerRTPTimestamp srLayer srRef clockRate ts)) ∧
    (getReferenceLayerRTPTimestamp exampleSenderReports 90000 105000 0 1 = .ok 106000) ∧
    (∀ (senderReports : Fin 3 → Option RTCPSenderReportData) (clockRate ts : Nat)
       (layer referenceLayer : Int),
      0 ≤ layer → 0 ≤ referenceLayer →
      (lookupSenderReport senderReports layer = none ∨
       (∃ sr, lookupSenderReport senderReports layer = some sr ∧ sr.ntpTimestamp = 0) ∨
       lookupSenderReport senderReports referenceLayer = none ∨
       (∃ sr, lookupSenderReport senderReports referenceLayer = some sr ∧
              sr.ntpTimestamp = 0)) →
      getReferenceLayerRTPTimestamp senderReports clockRate ts layer referenceLayer =
          .error .layerReportNotAvailable ∨
      getReferenceLayerRTPTimestamp senderReports clockRate ts layer referenceLayer =
          .error .referenceReportNotAvailable) := by
  refine ⟨?_, by rfl, ?_⟩
  · intro senderReports clockRate ts layer referenceLayer srLayer srRef hl hr hsl hnl hsr
      hnr h64l h64r hlo hhi
    have ha : (ntpNanos srRef.ntpTimestamp : Int) < 2 ^ 63 := by
      exact_mod_cast ntpNanos_lt srRef.ntpTimestamp h64r
    have hb : (ntpNanos srLayer.ntpTimestamp : Int) < 2 ^ 63 := by
      exact_mod_cast ntpNanos_lt srLayer.ntpTimestamp h64l
    have hclamp : max (-(2 ^ 63)) (min (2 ^ 63 - 1)
        ((ntpNanos srRef.ntpTimestamp : Int) - (ntpNanos srLayer.ntpTimestamp : Int))) =
        (ntpNanos srRef.ntpTimestamp : Int) - (ntpNanos srLayer.ntpTimestamp : Int) := by
      omega
    have hkey : Int.tdiv (wrap64 ((max (-(2 ^ 63)) (min (2 ^ 63 - 1)
        ((ntpNanos srRef.ntpTimestamp : Int) - (ntpNanos srLayer.ntpTimestamp : Int)))) *
          (clockRate : Int))) 1000000000 =
        Int.tdiv (((ntpNanos srRef.ntpTimestamp : Int) -
          (ntpNanos srLayer.ntpTimestamp : Int)) * (clockRate : Int)) 1000000000 := by
      rw [hclamp, wrap64_eq_self _ hlo hhi]
    norm_num at hkey
    simp [getReferenceLayerRTPTimestamp, Int.not_lt.mpr hl, Int.not_lt.mpr hr, hsl, hsr,
      hnl, hnr, hkey, claimedReferenceLayerRTPTimestamp]
  · intro senderReports clockRate ts layer referenceLayer hl hr hmiss
    unfold getReferenceLayerRTPTimestamp
    rw [if_neg (by omega)]
    rcases hmiss with h | ⟨sr, hsr, hz⟩ | h | ⟨sr, hsr, hz⟩
    · simp [h]
    · simp only [hsr, hz]
      simp
    · cases hsl : lookupSenderReport senderReports layer with
      | none => simp
      | some srLayer =>
        by_cases hz : srLayer.ntpTimestamp = 0 <;> simp [hz, h]
    · cases hsl : lookupSenderReport senderReports layer with
      | none => simp
      | some srLayer =>
        by_cases hzl : srLayer.ntpTimestamp = 0 <;> simp [hzl, hsr, hz]

/-- Witness for C1 at the literal sender-report state of the specification
example: both sender reports are present with non-zero NTP timestamps fitting
uint64, the scaled NTP difference 9e12 fits int64, and applying the theorem
yields the claimed mapping, which evaluates to 106000. -/
theorem getReferenceLayerRTPTimestamp_spec_witness :
    (0 : Int) ≤ 0 ∧ (0 : Int) ≤ 1 ∧
    lookupSenderReport exampleSenderReports 0 =
      some { ntpTimestamp := 1000 * 2 ^ 32, rtpTimestamp := 100000 } ∧
    lookupSenderReport exampleSenderReports 1 =
      some { ntpTimestamp := 1000 * 2 ^ 32 + 429496730, rtpTimestamp := 110000 } ∧
    (1000 * 2 ^ 32 : Nat) < 2 ^ 64 ∧ (1000 * 2 ^ 32 + 429496730 : Nat) < 2 ^ 64 ∧
    getReferenceLayerRTPTimestamp exampleSenderReports 90000 105000 0 1 = .ok 106000 :=
  ⟨le_refl 0, by decide, by decide, by decide, by decide, by decide,
    ((getReferenceLayerRTPTimestamp_spec.1 exampleSenderReports 90000 105000 0 1
        { ntpTimestamp := 1000 * 2 ^ 32, rtpTimestamp := 100000 }
        { ntpTimestamp := 1000 * 2 ^ 32 + 429496730, rtpTimestamp := 110000 }
        (by decide) (by decide) (by decide) (by decide) (by decide) (by decide)
        (by decide) (by decide) (by decide) (by decide)).trans
      (by rfl))⟩

/-- C10: mapping a timestamp from a layer to itself is the identity: with a
recorded sender report carrying a non-zero NTP timestamp on that layer, the
slow-path computation returns ts unchanged. -/
theorem getReferenceLayerRTPTimestamp_identity
    (senderReports : Fin 3 → Option RTCPSenderReportData) (clockRate ts : Nat)
    (layer : Int) (sr : RTCPSenderReportData)
    (hlayer : 0 ≤ layer)
    (hlookup : lookupSenderReport senderReports layer = some sr)
    (hntp : sr.ntpTimestamp ≠ 0)
    (hts : ts < 2 ^ 32) :
    getReferenceLayerRTPTimestamp senderReports clockRate ts layer layer = .ok ts := by
  simp only [getReferenceLayerRTPTimestamp, Int.not_lt.mpr hlayer, or_self, if_false,
    hlookup, hntp, if_neg hntp]
  have h0 : wrap64 ((max (-(2 ^ 63)) (min (2 ^ 63 - 1)
      ((ntpNanos sr.ntpTimestamp : Int) - (ntpNanos sr.ntpTimestamp : Int)))) *
      (clockRate : Int)) = 0 := by
    have hz : (ntpNanos sr.ntpTimestamp : Int) - (ntpNanos sr.ntpTimestamp : Int) = 0 := by
      ring
    rw [hz, (by omega : max (-(2 ^ 63) : Int) (min (2 ^ 63 - 1) 0) = 0), zero_mul]
    unfold wrap64
    norm_num
  rw [h0]
  simp only [Int.zero_tdiv]
  have hu : u32ofInt 0 = 0 := by decide
  rw [hu]
  simp only [u32add, u32sub, u32, Except.ok.injEq]
  omega

/-- Witness for C10 at the example sender-report state, layer 1: the
self-mapping of timestamp 105000 returns 105000. -/
theorem getReferenceLayerRTPTimestamp_identity_witness :
    (0 : Int) ≤ 1 ∧
    lookupSenderReport exampleSenderReports 1 =
      some { ntpTimestamp := 1000 * 2 ^ 32 + 429496730, rtpTimestamp := 110000 } ∧
    (105000 : Nat) < 2 ^ 32 ∧
    getReferenceLayerRTPTimestamp exampleSenderReports 90000 105000 1 1 = .ok 105000 :=
  ⟨by decide, by decide, by decide,
    getReferenceLayerRTPTimestamp_identity exampleSenderReports 90000 105000 1
      { ntpTimestamp := 1000 * 2 ^ 32 + 429496730, rtpTimestamp := 110000 }
      (by decide) (by decide) (by decide) (by decide)⟩

/-- Counterexample to C3 as stated: with an SVC track whose layer 0 tracker
reports 100000 bytes per second while layers 1 and 2 have no tracker, the
assembled matrix has bitrates[1][0] = 0 below bitrates[0][0] = 100000, so
the temporal columns are not cumulative across spatial rows. -/
theorem getLayeredBitrate_cumulative_counterexample :
    ¬ (∀ (s : Fin 3) (t : Fin 4), 1 ≤ (s : Nat) →
        getLayeredBitrateLocked true soloLayerTrackers [0] ⟨(s : Nat) - 1, by omega⟩ t ≤
          getLayeredBitrateLocked true soloLayerTrackers [0] s t) := by
  decide

/-- C3 amended: for an SVC track with nonnegative per-tracker byte counts,
every nonzero entry of the assembled Bitrates matrix dominates the entry one
spatial row below it in the same temporal column. -/
theorem getLayeredBitrate_cumulative_amended
    (trackers : Fin 3 → Option (Fin 4 → Int)) (availableLayers : List Int)
    (hnn : ∀ i f, trackers i = some f → ∀ j, 0 ≤ f j)
    (s : Fin 3) (t : Fin 4) (hs : 1 ≤ (s : Nat))
    (hnz : getLayeredBitrateLocked true trackers availableLayers s t ≠ 0) :
    getLayeredBitrateLocked true trackers availableLayers ⟨(s : Nat) - 1, by omega⟩ t ≤
      getLayeredBitrateLocked true trackers availableLayers s t := by
  have hb : ∀ i j, 0 ≤ baseBitrates trackers availableLayers i j := by
    intro i j
    unfold baseBitrates
    cases h : trackers i with
    | none => simp
    | some f =>
      by_cases hmem : (i : Int) ∈ availableLayers
      · simpa [hmem] using hnn i f h j
      · simp [hmem]
  have h0 := hb 0 t
  have h1 := hb 1 t
  have h2 := hb 2 t
  rcases s with ⟨sv, hsv⟩
  have e0 : ((0 : Fin 3) : Nat) = 0 := rfl
  have e1 : ((1 : Fin 3) : Nat) = 1 := rfl
  have e2 : ((2 : Fin 3) : Nat) = 2 := rfl
  interval_cases sv
  · replace hnz : getLayeredBitrateLocked true trackers availableLayers 1 t ≠ 0 := hnz
    show getLayeredBitrateLocked true trackers availableLayers 0 t ≤
      getLayeredBitrateLocked true trackers availableLayers 1 t
    simp only [getLayeredBitrateLocked, colSum, e0, e1, e2, le_refl, true_and,
      (by norm_num : ¬ (1 : Nat) ≤ 0), false_and, if_false,
      (by norm_num : ((0 : Nat) = 0) = True), if_true] at hnz ⊢
    split_ifs at hnz ⊢ <;> omega
  · replace hnz : getLayeredBitrateLocked true trackers availableLayers 2 t ≠ 0 := hnz
    show getLayeredBitrateLocked true trackers availableLayers 1 t ≤
      getLayeredBitrateLocked true trackers availableLayers 2 t
    simp only [getLayeredBitrateLocked, colSum, e0, e1, e2, le_refl, true_and,
      (by norm_num : (1 : Nat) ≤ 2), (by norm_num : ((1 : Nat) = 0) = False),
      (by norm_num : ((2 : Nat) = 0) = False), if_false] at hnz ⊢
    split_ifs at hnz ⊢ <;> omega

/-- Witness for C3 at the dual-layer tracker state: layer byte counts are
nonnegative, the SVC matrix entry at spatial 1 is the nonzero cumulative
300000, and it dominates the 100000 of spatial row 0. -/
theorem getLayeredBitrate_cumulative_amended_witness :
    (∀ i f, dualLayerTrackers i = some f → ∀ j, 0 ≤ f j) ∧
    1 ≤ ((1 : Fin 3) : Nat) ∧
    getLayeredBitrateLocked true dualLayerTrackers [0, 1] 1 0 ≠ 0 ∧
    getLayeredBitrateLocked true dualLayerTrackers [0, 1] ⟨0, by omega⟩ 0 ≤
      getLayeredBitrateLocked true dualLayerTrackers [0, 1] 1 0 := by
  have hnn : ∀ i f, dualLayerTrackers i = some f → ∀ j, 0 ≤ f j := by
    intro i f h j
    fin_cases i <;> simp only [dualLayerTrackers] at h
    · obtain rfl := (Option.some.inj (by simpa using h))
      norm_num
    · obtain rfl := (Option.some.inj (by simpa using h))
      norm_num
    · simp at h
  refine ⟨hnn, by decide, by decide, ?_⟩
  exact getLayeredBitrate_cumulative_amended dualLayerTrackers [0, 1] hnn 1 0
    (by decide) (by decide)


set_option maxHeartbeats 1000000 in
/-- Helper: with a VP9 payload, a valid current layer and a target differing
from it, the current layer after Select is given componentwise by the two
transition branches of the source. -/
theorem vp9Select_currentLayer
    (v : VP9SelectorState) (extPkt : ExtPacket) (vp9 : VP9PacketFlags)
    (hvp9 : extPkt.vp9 = some vp9)
    (hvalid : v.currentLayer.IsValid = true)
    (hneq : v.currentLayer ≠ v.targetLayer) :
    (vp9Select v extPkt).1.currentLayer =
      { temporal :=
          if v.currentLayer.temporal ≠ v.targetLayer.temporal then
            if v.currentLayer.temporal < v.targetLayer.temporal then
              if extPkt.videoLayer.temporal > v.currentLayer.temporal ∧
                 extPkt.videoLayer.temporal ≤ v.targetLayer.temporal ∧
                 vp9.U = true ∧ vp9.B = true then extPkt.videoLayer.temporal
              else v.currentLayer.temporal
            else if vp9.E then v.targetLayer.temporal else v.currentLayer.temporal
          else v.currentLayer.temporal
        spatial :=
          if v.currentLayer.spatial ≠ v.targetLayer.spatial then
            if v.currentLayer.spatial < v.targetLayer.spatial then
              if extPkt.videoLayer.spatial > v.currentLayer.spatial ∧
                 extPkt.videoLayer.spatial ≤ v.targetLayer.spatial ∧
                 vp9.P = false ∧ vp9.B = true then extPkt.videoLayer.spatial
              else v.currentLayer.spatial
            else if vp9.E then v.targetLayer.spatial else v.currentLayer.spatial
          else v.currentLayer.spatial } := by
  simp only [vp9Select, hvp9, vp9SelectInner, if_neg hneq, hvalid, Bool.not_true,
    Bool.false_eq_true, if_false]
  split_ifs <;>
    first
      | rfl
      | simp_all

/-- C4: for the VP9 selector with a valid current layer differing from the
target, the current temporal layer rises only on a packet with the U and B
flags whose temporal layer lies in (current.temporal, target.temporal] (and
then to the packet temporal); it falls only on a packet with the E flag and
then to the target temporal; the current spatial layer rises only on a
packet with !P and B whose spatial layer is above current (and at most
target), and falls only on a packet with the E flag and then to the target
spatial. Conversely, each such packet does move the layer. -/
theorem vp9Select_transitions
    (v : VP9SelectorState) (extPkt : ExtPacket) (vp9 : VP9PacketFlags)
    (hvp9 : extPkt.vp9 = some vp9)
    (hvalid : v.currentLayer.IsValid = true)
    (hneq : v.currentLayer ≠ v.targetLayer) :
    ((vp9Select v extPkt).1.currentLayer.temporal > v.currentLayer.temporal →
       vp9.U = true ∧ vp9.B = true ∧
       v.currentLayer.temporal < extPkt.videoLayer.temporal ∧
       extPkt.videoLayer.temporal ≤ v.targetLayer.temporal ∧
       (vp9Select v extPkt).1.currentLayer.temporal = extPkt.videoLayer.temporal) ∧
    ((vp9Select v extPkt).1.currentLayer.temporal < v.currentLayer.temporal →
       vp9.E = true ∧
       (vp9Select v extPkt).1.currentLayer.temporal = v.targetLayer.temporal) ∧
    ((vp9Select v extPkt).1.currentLayer.spatial > v.currentLayer.spatial →
       vp9.P = false ∧ vp9.B = true ∧
       v.currentLayer.spatial < extPkt.videoLayer.spatial ∧
       extPkt.videoLayer.spatial ≤ v.targetLayer.spatial ∧
       (vp9Select v extPkt).1.currentLayer.spatial = extPkt.videoLayer.spatial) ∧
    ((vp9Select v extPkt).1.currentLayer.spatial < v.currentLayer.spatial →
       vp9.E = true ∧
       (vp9Select v extPkt).1.currentLayer.spatial = v.targetLayer.spatial) ∧
    (v.currentLayer.temporal < v.targetLayer.temporal →
       v.currentLayer.temporal < extPkt.videoLayer.temporal →
       extPkt.videoLayer.temporal ≤ v.targetLayer.temporal →
       vp9.U = true → vp9.B = true →
       (vp9Select v extPkt).1.currentLayer.temporal = extPkt.videoLayer.temporal) ∧
    (v.targetLayer.temporal < v.currentLayer.temporal → vp9.E = true →
       (vp9Select v extPkt).1.currentLayer.temporal = v.targetLayer.temporal) ∧
    (v.currentLayer.spatial < v.targetLayer.spatial →
       v.currentLayer.spatial < extPkt.videoLayer.spatial →
       extPkt.videoLayer.spatial ≤ v.targetLayer.spatial →
       vp9.P = false → vp9.B = true →
       (vp9Select v extPkt).1.currentLayer.spatial = extPkt.videoLayer.spatial) ∧
    (v.targetLayer.spatial < v.currentLayer.spatial → vp9.E = true →
       (vp9Select v extPkt).1.currentLayer.spatial = v.targetLayer.spatial) := by
  rw [vp9Select_currentLayer v extPkt vp9 hvp9 hvalid hneq]
  simp only []
  split_ifs <;> simp_all <;> omega

/-- Witness for C4 at the literal example of the specification (scenario 3):
current layer (0,0), target (1,2); a packet with VideoLayer (0,1) and the
U and B flags moves the current temporal layer to 1. -/
theorem vp9Select_transitions_witness :
    (({ vp9 := some { P := true, E := false, B := true, U := true }, keyFrame := false,
        videoLayer := { spatial := 0, temporal := 1 }, marker := false } : ExtPacket).vp9 =
      some { P := true, E := false, B := true, U := true }) ∧
    (({ currentLayer := { spatial := 0, temporal := 0 },
        targetLayer := { spatial := 1, temporal := 2 },
        requestSpatial := 1,
        maxLayer := { spatial := 2, temporal := 3 } } :
          VP9SelectorState).currentLayer.IsValid = true) ∧
    (vp9Select
        { currentLayer := { spatial := 0, temporal := 0 },
          targetLayer := { spatial := 1, temporal := 2 },
          requestSpatial := 1,
          maxLayer := { spatial := 2, temporal := 3 } }
        { vp9 := some { P := true, E := false, B := true, U := true }, keyFrame := false,
          videoLayer := { spatial := 0, temporal := 1 }, marker := false }).1.currentLayer.temporal =
      1 :=
  ⟨rfl, by decide,
   (vp9Select_transitions
      { currentLayer := { spatial := 0, temporal := 0 },
        targetLayer := { spatial := 1, temporal := 2 },
        requestSpatial := 1,
        maxLayer := { spatial := 2, temporal := 3 } }
      { vp9 := some { P := true, E := false, B := true, U := true }, keyFrame := false,
        videoLayer := { spatial := 0, temporal := 1 }, marker := false }
      { P := true, E := false, B := true, U := true }
      rfl (by decide) (by decide)).2.2.2.2.1
    (by decide) (by decide) (by decide) rfl rfl⟩

/-- Counterexample to C2 as stated: with a history holding a packet whose
sequence number is 5 below the current packet (within 16, not equal, zero
timestamp distance), the encoder collects no redundancy at all, because the
source admits only packets within maxRedCount = 2 sequence numbers, not 16. -/
theorem collectRedPackets_counterexample :
    collectRedPackets histSnFive pktSnTen ≠ claimedCollectRedPackets histSnFive pktSnTen := by
  decide

/-- C2 amended: the redundancy blocks collected for a primary packet are
exactly the history entries above the newest empty slot whose sequence
number is between 1 and maxRedCount = 2 behind the current packet (uint16
arithmetic) and whose timestamp is strictly less than 16384 units behind
(uint32 arithmetic), limited to the 2-entry history. -/
theorem collectRedPackets_amended (hist : RedHistory) (pkt : RtpPacket) :
    collectRedPackets hist pkt = (scanWindow hist).filter (amendedRedUsable pkt) := by
  unfold collectRedPackets
  refine List.filter_congr fun prev _ => ?_
  unfold redUsable amendedRedUsable
  rw [decide_eq_decide]
  unfold maxRedCount u16sub u32sub u16 u32
  omega

/-- Helper: the sum of a constant-valued map is the constant times the
length. -/
theorem sum_map_const_nat {α : Type} (l : List α) (c : Nat) :
    (l.map (fun _ => c)).sum = c * l.length := by
  induction l with
  | nil => simp
  | cons a t ih => simp [ih, Nat.mul_succ, Nat.add_comm, Nat.mul_comm]

/-- Helper: the flattened bytes of the serialized redundancy headers take
four bytes per redundancy packet. -/
theorem length_flatten_headers (primary : RtpPacket) (l : List RtpPacket) :
    ((l.map (fun p => putUint32 (redHeaderWord primary p))).flatten).length =
      4 * l.length := by
  rw [List.length_flatten, List.map_map]
  have : (List.length ∘ fun p => putUint32 (redHeaderWord primary p)) =
      fun _ : RtpPacket => 4 := by
    funext p
    simp [putUint32]
  rw [this, sum_map_const_nat]

/-- Helper: the flattened redundancy payload bytes have the summed payload
lengths. -/
theorem length_flatten_payloads (l : List RtpPacket) :
    ((l.map (fun p => p.payload)).flatten).length =
      (l.map (fun p => p.payload.length)).sum := by
  rw [List.length_flatten, List.map_map]
  rfl

/-- C5: the redundancy list never exceeds maxRedCount = 2 entries, and for
every successful RED encoding step over the mtuSize = 1500 byte scratch
buffer, when the required payload size (primary length + 1 type byte + each
redundancy length + 4 header bytes) exceeds the buffer the emitted payload
is exactly the one-byte primary block header followed by the primary
payload, and otherwise the emitted payload length is 4k + 1 + the summed
redundancy payload lengths + the primary payload length. -/
theorem encodeRed_size_spec :
    (∀ (hist : RedHistory) (pkt : RtpPacket),
      (collectRedPackets hist pkt).length ≤ maxRedCount) ∧
    (∀ (hist : RedHistory) (pkt : RtpPacket) (hist2 : RedHistory) (out : List Nat),
      encodeRedForPrimaryMethod hist pkt = (hist2, .ok out) →
      (pkt.payload.length + 1 +
          ((collectRedPackets hist pkt).map (fun p => p.payload.length + 4)).sum > mtuSize →
        out = opusPT :: pkt.payload) ∧
      (pkt.payload.length + 1 +
          ((collectRedPackets hist pkt).map (fun p => p.payload.length + 4)).sum ≤ mtuSize →
        out.length = 4 * (collectRedPackets hist pkt).length + 1 +
          ((collectRedPackets hist pkt).map (fun p => p.payload.length)).sum +
          pkt.payload.length)) := by
  constructor
  · intro hist pkt
    have hlen : (scanWindow hist).length ≤ 2 := by
      rcases hist with ⟨s0, s1⟩
      cases s1 <;> cases s0 <;> simp [scanWindow]
    calc (collectRedPackets hist pkt).length
        ≤ (scanWindow hist).length := List.length_filter_le _ _
      _ ≤ maxRedCount := hlen
  · intro hist pkt hist2 out h
    unfold encodeRedForPrimaryMethod at h
    have henc := congrArg Prod.snd h
    simp only at henc
    simp only [encodeRedForPrimary] at henc
    by_cases hover : pkt.payload.length + 1 +
        ((collectRedPackets hist pkt).map (fun p => p.payload.length + 4)).sum > mtuSize
    · refine ⟨fun _ => ?_, fun hle => absurd hover (by omega)⟩
      rw [if_pos hover] at henc
      simp only [List.map_nil, List.flatten_nil, List.nil_append] at henc
      split at henc
      · simp at henc
      · exact (Except.ok.inj henc).symm
    · refine ⟨fun hgt => absurd hgt hover, fun _ => ?_⟩
      rw [if_neg hover] at henc
      split at henc
      · simp at henc
      · have he := Except.ok.inj henc
        subst he
        simp only [List.length_append, List.length_cons, List.length_nil,
          length_flatten_headers, length_flatten_payloads]
        try omega

/-- Helper: the header word built by shifting and masking in the source
equals the specification bit layout F(1) | PT(7) | TS offset(14) | block
length(10). -/
theorem redHeaderWord_eq_spec (primary p : RtpPacket) :
    redHeaderWord primary p = specRedHeaderWord primary p := by
  have hor : ∀ (x b n : Nat), b < 2 ^ n → (x <<< n) ||| b = x * 2 ^ n + b := by
    intro x b n hb
    rw [Nat.shiftLeft_eq, Nat.mul_comm, ← Nat.mul_add_lt_is_or hb]
  simp only [redHeaderWord, specRedHeaderWord, opusPT]
  rw [(by decide : (0x80 ||| 111 : Nat) = 239),
    (by norm_num : (0x3FFF : Nat) = 2 ^ 14 - 1), (by norm_num : (0x3FF : Nat) = 2 ^ 10 - 1),
    Nat.and_pow_two_sub_one_eq_mod, Nat.and_pow_two_sub_one_eq_mod,
    hor _ _ 14 (Nat.mod_lt _ (by norm_num)), hor _ _ 10 (Nat.mod_lt _ (by norm_num))]
  ring

/-- C6: every payload produced by the RED encoder is laid out as the header
blocks of the kept redundancy packets (all of them, or none on overflow),
then the single-byte final header holding only the primary payload type
(first bit clear since opusPT < 2^7), then the concatenated redundancy
payloads, then the primary payload; each redundancy header block is the
4-byte big-endian serialization of F(1, set) | PT(7) | timestamp offset of
current minus redundant packet (14 bits) | block length (10 bits). -/
theorem encodeRed_layout_spec (redPkts : List RtpPacket) (primary : RtpPacket)
    (bufLen : Nat) (out : List Nat)
    (h : encodeRedForPrimary redPkts primary bufLen = .ok out) :
    out = ((if primary.payload.length + 1 +
              (redPkts.map (fun p => p.payload.length + 4)).sum > bufLen
            then [] else redPkts).map
            (fun p => putUint32 (specRedHeaderWord primary p))).flatten ++
          [opusPT] ++
          ((if primary.payload.length + 1 +
              (redPkts.map (fun p => p.payload.length + 4)).sum > bufLen
            then [] else redPkts).map (fun p => p.payload)).flatten ++
          primary.payload ∧
      opusPT < 2 ^ 7 ∧
      (∀ q : RtpPacket, (putUint32 (specRedHeaderWord primary q)).length = 4) := by
  have hw : (fun q => putUint32 (redHeaderWord primary q)) =
      (fun q => putUint32 (specRedHeaderWord primary q)) :=
    funext fun q => by rw [redHeaderWord_eq_spec]
  simp only [encodeRedForPrimary, hw] at h
  split at h <;> rename_i hcond
  · split at h
    · simp at h
    · refine ⟨?_, by decide, fun q => rfl⟩
      rw [← Except.ok.inj h, if_pos hcond]
  · split at h
    · simp at h
    · refine ⟨?_, by decide, fun q => rfl⟩
      rw [← Except.ok.inj h, if_neg hcond]

/-- Witness for C6 at a concrete encoding: one redundancy packet of payload
[7, 8] at timestamp distance 960 ahead of a primary of payload [1, 2, 3]
produces the payload [239, 15, 0, 2, 111, 7, 8, 1, 2, 3], whose header block
0xEF0F0002 carries F = 1, PT = 111, offset 960 and length 2. -/
theorem encodeRed_layout_spec_witness :
    encodeRedForPrimary [{ sequenceNumber := 9, timestamp := 0, payload := [7, 8] }]
        { sequenceNumber := 10, timestamp := 960, payload := [1, 2, 3] } 1500 =
      .ok [239, 15, 0, 2, 111, 7, 8, 1, 2, 3] ∧
    ([239, 15, 0, 2, 111, 7, 8, 1, 2, 3] : List Nat) =
      putUint32 (specRedHeaderWord
          { sequenceNumber := 10, timestamp := 960, payload := [1, 2, 3] }
          { sequenceNumber := 9, timestamp := 0, payload := [7, 8] }) ++
        [opusPT] ++ [7, 8] ++ [1, 2, 3] :=
  ⟨rfl,
   (encodeRed_layout_spec [{ sequenceNumber := 9, timestamp := 0, payload := [7, 8] }]
      { sequenceNumber := 10, timestamp := 960, payload := [1, 2, 3] } 1500
      [239, 15, 0, 2, 111, 7, 8, 1, 2, 3] rfl).1⟩

/-- Witness for C5 at a concrete encoding step from an empty history: no
redundancy is collected, the encoding succeeds and the output length is
1 + the primary payload length. -/
theorem encodeRed_size_spec_witness :
    encodeRedForPrimaryMethod { slot0 := none, slot1 := none }
        { sequenceNumber := 1, timestamp := 0, payload := [5, 6] } =
      ({ slot0 := none,
         slot1 := some { sequenceNumber := 1, timestamp := 0, payload := [5, 6] } },
       .ok [opusPT, 5, 6]) ∧
    ([opusPT, 5, 6] : List Nat).length =
      4 * (collectRedPackets { slot0 := none, slot1 := none }
            { sequenceNumber := 1, timestamp := 0, payload := [5, 6] }).length + 1 +
        ((collectRedPackets { slot0 := none, slot1 := none }
            { sequenceNumber := 1, timestamp := 0, payload := [5, 6] }).map
          (fun p => p.payload.length)).sum +
        ({ sequenceNumber := 1, timestamp := 0, payload := [5, 6] } : RtpPacket).payload.length :=
  ⟨rfl,
   (encodeRed_size_spec.2 { slot0 := none, slot1 := none }
      { sequenceNumber := 1, timestamp := 0, payload := [5, 6] }
      { slot0 := none,
        slot1 := some { sequenceNumber := 1, timestamp := 0, payload := [5, 6] } }
      [opusPT, 5, 6] rfl).2 (by decide)⟩
